import Mathlib

/-!
Verification development for `OpenPoseTesting/openpose-master/examples/tutorial_pose/dllExportFile.cpp`
of the Masquerade-Openpose repository.

The file under study is glue code: it declares 61 gflags command-line flags,
and exports a function `openPoseDemo` that validates the `logging_level` flag,
converts the flag values into five `op::WrapperStruct*` configuration objects
via conversion helpers of the external OpenPose library, configures an
`op::Wrapper` pipeline object with them, optionally disables multi-threading,
executes the pipeline, and returns 0.

We embed the file shallowly:

* `Flags` holds the 61 gflags variables (int32 as `Int`, uint64 as `Nat`,
  double as `Rat`, bool as `Bool`, string as `String`), with the declared
  default values (`defaultFlags`).
* The external library conversion helpers (`op::flagsToPoint`,
  `op::flagsToPoseModel`, ...) are not part of this repository; they are
  modelled freely: `Val` is an inductive datatype with one constructor per
  external conversion, recording exactly the arguments the call site passes.
  Two invocations agree iff they pass the same arguments, which is precisely
  what the claims about this file need.
* The observable behaviour of `openPoseDemo` is a trace of `Event`s, one per
  call into the external library, threaded through an explicit `DemoState`
  that also carries the (mutable in C++) flag variables.
-/

/-- The 61 gflags variables declared at the top of the file (lines 35-174),
in declaration order.  int32 flags become `Int`, uint64 flags become `Nat`
(values mod 2^64; the default `-1` of `frame_last` wraps to `2^64 - 1`),
double flags become `Rat`, bool flags `Bool` and string flags `String`. -/
structure Flags where
  logging_level : Int
  disable_multi_thread : Bool
  camera : Int
  camera_resolution : String
  camera_fps : Rat
  video : String
  image_dir : String
  ip_camera : String
  frame_first : Nat
  frame_last : Nat
  frame_flip : Bool
  frame_rotate : Int
  frames_repeat : Bool
  process_real_time : Bool
  model_folder : String
  output_resolution : String
  num_gpu : Int
  num_gpu_start : Int
  keypoint_scale : Int
  identification : Bool
  body_disable : Bool
  model_pose : String
  net_resolution : String
  scale_number : Int
  scale_gap : Rat
  heatmaps_add_parts : Bool
  heatmaps_add_bkg : Bool
  heatmaps_add_PAFs : Bool
  face : Bool
  face_net_resolution : String
  hand : Bool
  hand_net_resolution : String
  hand_scale_number : Int
  hand_scale_range : Rat
  hand_tracking : Bool
  part_to_show : Int
  disable_blending : Bool
  render_threshold : Rat
  render_pose : Int
  alpha_pose : Rat
  alpha_heatmap : Rat
  face_render_threshold : Rat
  face_render : Int
  face_alpha_pose : Rat
  face_alpha_heatmap : Rat
  hand_render_threshold : Rat
  hand_render : Int
  hand_alpha_pose : Rat
  hand_alpha_heatmap : Rat
  fullscreen : Bool
  no_gui_verbose : Bool
  no_display : Bool
  write_images : String
  write_images_format : String
  write_video : String
  write_keypoint : String
  write_keypoint_format : String
  write_keypoint_json : String
  write_coco_json : String
  write_heatmaps : String
  write_heatmaps_format : String

/-- The default values of the 61 flags, as declared in the `DEFINE_*` lines. -/
def defaultFlags : Flags where
  logging_level := 3
  disable_multi_thread := false
  camera := -1
  camera_resolution := "1280x720"
  camera_fps := 30
  video := ""
  image_dir := ""
  ip_camera := ""
  frame_first := 0
  frame_last := 18446744073709551615
  frame_flip := false
  frame_rotate := 0
  frames_repeat := false
  process_real_time := false
  model_folder := "Assets/Dependencies/models/"
  output_resolution := "-1x-1"
  num_gpu := -1
  num_gpu_start := 0
  keypoint_scale := 0
  identification := false
  body_disable := false
  model_pose := "COCO"
  net_resolution := "-1x368"
  scale_number := 1
  scale_gap := 3/10
  heatmaps_add_parts := false
  heatmaps_add_bkg := false
  heatmaps_add_PAFs := false
  face := false
  face_net_resolution := "368x368"
  hand := false
  hand_net_resolution := "368x368"
  hand_scale_number := 1
  hand_scale_range := 2/5
  hand_tracking := false
  part_to_show := 0
  disable_blending := false
  render_threshold := 1/20
  render_pose := 2
  alpha_pose := 3/5
  alpha_heatmap := 7/10
  face_render_threshold := 2/5
  face_render := -1
  face_alpha_pose := 3/5
  face_alpha_heatmap := 7/10
  hand_render_threshold := 1/5
  hand_render := -1
  hand_alpha_pose := 3/5
  hand_alpha_heatmap := 7/10
  fullscreen := false
  no_gui_verbose := false
  no_display := false
  write_images := ""
  write_images_format := "png"
  write_video := ""
  write_keypoint := ""
  write_keypoint_format := "yml"
  write_keypoint_json := ""
  write_coco_json := ""
  write_heatmaps := ""
  write_heatmaps_format := "png"

/-- The names of the 61 flags, in declaration order (source lines 35-174). -/
def flagNames : List String :=
  ["logging_level", "disable_multi_thread", "camera", "camera_resolution",
   "camera_fps", "video", "image_dir", "ip_camera", "frame_first",
   "frame_last", "frame_flip", "frame_rotate", "frames_repeat",
   "process_real_time", "model_folder", "output_resolution", "num_gpu",
   "num_gpu_start", "keypoint_scale", "identification", "body_disable",
   "model_pose", "net_resolution", "scale_number", "scale_gap",
   "heatmaps_add_parts", "heatmaps_add_bkg", "heatmaps_add_PAFs", "face",
   "face_net_resolution", "hand", "hand_net_resolution", "hand_scale_number",
   "hand_scale_range", "hand_tracking", "part_to_show", "disable_blending",
   "render_threshold", "render_pose", "alpha_pose", "alpha_heatmap",
   "face_render_threshold", "face_render", "face_alpha_pose",
   "face_alpha_heatmap", "hand_render_threshold", "hand_render",
   "hand_alpha_pose", "hand_alpha_heatmap", "fullscreen", "no_gui_verbose",
   "no_display", "write_images", "write_images_format", "write_video",
   "write_keypoint", "write_keypoint_format", "write_keypoint_json",
   "write_coco_json", "write_heatmaps", "write_heatmaps_format"]

/-- The names of the five configuration structs `openPoseDemo` builds and
passes to `opWrapper.configure` (source lines 217-249). -/
def configStructNames : List String :=
  ["WrapperStructPose", "WrapperStructFace", "WrapperStructHand",
   "WrapperStructInput", "WrapperStructOutput"]

/-- Free model of the values produced by the external OpenPose library
conversion helpers and of the plain C++ values stored in the configuration
structs.  Each constructor for an external conversion records exactly the
arguments the call site passes, so two such values are equal iff the same
helper was called with the same arguments. -/
inductive Val where
  /-- A plain int32 flag value stored unchanged. -/
  | int (i : Int) : Val
  /-- A plain bool value stored unchanged (possibly a negated flag). -/
  | bool (b : Bool) : Val
  /-- A plain string flag value stored unchanged. -/
  | str (s : String) : Val
  /-- A plain uint64 flag value stored unchanged. -/
  | nat (n : Nat) : Val
  /-- A double flag value stored unchanged. -/
  | rat (q : Rat) : Val
  /-- A double flag value cast to float, `(float)FLAGS_x`. -/
  | floatCast (q : Rat) : Val
  /-- Result of `op::flagsToPoint(resolutionString, defaultString)`. -/
  | point (inp defaultStr : String) : Val
  /-- Result of `op::flagsToPoseModel(modelString)`. -/
  | poseModel (inp : String) : Val
  /-- Result of `op::flagsToScaleMode(keypointScaleInt)`. -/
  | scaleMode (inp : Int) : Val
  /-- The constant `op::ScaleMode::UnsignedChar`. -/
  | scaleModeUnsignedChar : Val
  /-- Result of `op::flagsToHeatMaps(parts, bkg, PAFs)`. -/
  | heatMaps (parts bkg pafs : Bool) : Val
  /-- Result of the one-argument call `op::flagsToRenderMode(flag)`. -/
  | renderMode (inp : Int) : Val
  /-- Result of the two-argument call `op::flagsToRenderMode(flag, defaultFlag)`. -/
  | renderModeDefault (inp defaultInp : Int) : Val
  /-- Result of `op::flagsToProducer(imageDir, video, ipCamera, camera,
  cameraResolution, cameraFps)`. -/
  | producer (imageDir video ipCamera : String) (camera : Int)
      (cameraResolution : String) (cameraFps : Rat) : Val
  /-- Result of `op::stringToDataFormat(formatString)`. -/
  | dataFormat (inp : String) : Val
  deriving DecidableEq, Repr

/-- Model of `op::flagsToPoint` (external library): records its arguments. -/
def flagsToPoint (inp defaultStr : String) : Val := Val.point inp defaultStr

/-- Model of `op::flagsToPoseModel` (external library). -/
def flagsToPoseModel (inp : String) : Val := Val.poseModel inp

/-- Model of `op::flagsToScaleMode` (external library). -/
def flagsToScaleMode (inp : Int) : Val := Val.scaleMode inp

/-- Model of `op::flagsToHeatMaps` (external library). -/
def flagsToHeatMaps (parts bkg pafs : Bool) : Val := Val.heatMaps parts bkg pafs

/-- Model of the one-argument call of `op::flagsToRenderMode` (external library). -/
def flagsToRenderMode (inp : Int) : Val := Val.renderMode inp

/-- Model of the two-argument call of `op::flagsToRenderMode` (external library). -/
def flagsToRenderMode2 (inp defaultInp : Int) : Val :=
  Val.renderModeDefault inp defaultInp

/-- Model of `op::flagsToProducer` (external library). -/
def flagsToProducer (imageDir video ipCamera : String) (camera : Int)
    (cameraResolution : String) (cameraFps : Rat) : Val :=
  Val.producer imageDir video ipCamera camera cameraResolution cameraFps

/-- Model of `op::stringToDataFormat` (external library). -/
def stringToDataFormat (inp : String) : Val := Val.dataFormat inp

/-- Mirror of `op::WrapperStructPose` as populated at source lines 217-224.
Field names describe the positional brace-initializer arguments; each field
holds the modelled value the call site passes. -/
structure WrapperStructPose where
  enable : Val
  netInputSize : Val
  outputSize : Val
  keypointScale : Val
  gpuNumber : Val
  gpuNumberStart : Val
  scalesNumber : Val
  scaleGap : Val
  renderModePose : Val
  poseModel : Val
  blendOriginalFrame : Val
  alphaKeypoint : Val
  alphaHeatMap : Val
  defaultPartToRender : Val
  modelFolder : Val
  heatMapTypes : Val
  heatMapScale : Val
  renderThreshold : Val
  enableGoogleLogging : Val
  identification : Val
  deriving DecidableEq, Repr

/-- Mirror of `op::WrapperStructFace` as populated at source lines 226-229. -/
structure WrapperStructFace where
  enable : Val
  netInputSize : Val
  renderModeFace : Val
  alphaKeypoint : Val
  alphaHeatMap : Val
  renderThreshold : Val
  deriving DecidableEq, Repr

/-- Mirror of `op::WrapperStructHand` as populated at source lines 231-235. -/
structure WrapperStructHand where
  enable : Val
  netInputSize : Val
  scalesNumber : Val
  scaleRange : Val
  tracking : Val
  renderModeHand : Val
  alphaKeypoint : Val
  alphaHeatMap : Val
  renderThreshold : Val
  deriving DecidableEq, Repr

/-- Mirror of `op::WrapperStructInput` as populated at source lines 237-239. -/
structure WrapperStructInput where
  producerSharedPtr : Val
  frameFirst : Val
  frameLast : Val
  realTimeProcessing : Val
  frameFlip : Val
  frameRotate : Val
  framesRepeat : Val
  deriving DecidableEq, Repr

/-- Mirror of `op::WrapperStructOutput` as populated at source lines 241-246. -/
structure WrapperStructOutput where
  displayGui : Val
  guiVerbose : Val
  fullScreen : Val
  writeKeypoint : Val
  writeKeypointFormat : Val
  writeKeypointJson : Val
  writeCocoJson : Val
  writeImages : Val
  writeImagesFormat : Val
  writeVideo : Val
  writeHeatMaps : Val
  writeHeatMapsFormat : Val
  deriving DecidableEq, Repr

/-- The five structs passed (in this order) to `opWrapper.configure`
at source lines 248-249. -/
structure Configured where
  pose : WrapperStructPose
  face : WrapperStructFace
  hand : WrapperStructHand
  input : WrapperStructInput
  output : WrapperStructOutput
  deriving DecidableEq, Repr

/-- The `wrapperStructPose` value built at source lines 217-224:
`{ !FLAGS_body_disable, netInputSize, outputSize, keypointScale, FLAGS_num_gpu,
FLAGS_num_gpu_start, FLAGS_scale_number, (float)FLAGS_scale_gap,
op::flagsToRenderMode(FLAGS_render_pose), poseModel, !FLAGS_disable_blending,
(float)FLAGS_alpha_pose, (float)FLAGS_alpha_heatmap, FLAGS_part_to_show,
FLAGS_model_folder, heatMapTypes, op::ScaleMode::UnsignedChar,
(float)FLAGS_render_threshold, enableGoogleLogging, FLAGS_identification }`
with `netInputSize = flagsToPoint(FLAGS_net_resolution, "-1x368")`,
`outputSize = flagsToPoint(FLAGS_output_resolution, "-1x-1")`,
`keypointScale = flagsToScaleMode(FLAGS_keypoint_scale)`,
`poseModel = flagsToPoseModel(FLAGS_model_pose)`,
`heatMapTypes = flagsToHeatMaps(FLAGS_heatmaps_add_parts,
FLAGS_heatmaps_add_bkg, FLAGS_heatmaps_add_PAFs)` and
`enableGoogleLogging = true`. -/
def wrapperStructPose (f : Flags) : WrapperStructPose where
  enable := Val.bool (!f.body_disable)
  netInputSize := flagsToPoint f.net_resolution ("-1x368")
  outputSize := flagsToPoint f.output_resolution ("-1x-1")
  keypointScale := flagsToScaleMode f.keypoint_scale
  gpuNumber := Val.int f.num_gpu
  gpuNumberStart := Val.int f.num_gpu_start
  scalesNumber := Val.int f.scale_number
  scaleGap := Val.floatCast f.scale_gap
  renderModePose := flagsToRenderMode f.render_pose
  poseModel := flagsToPoseModel f.model_pose
  blendOriginalFrame := Val.bool (!f.disable_blending)
  alphaKeypoint := Val.floatCast f.alpha_pose
  alphaHeatMap := Val.floatCast f.alpha_heatmap
  defaultPartToRender := Val.int f.part_to_show
  modelFolder := Val.str f.model_folder
  heatMapTypes := flagsToHeatMaps f.heatmaps_add_parts f.heatmaps_add_bkg f.heatmaps_add_PAFs
  heatMapScale := Val.scaleModeUnsignedChar
  renderThreshold := Val.floatCast f.render_threshold
  enableGoogleLogging := Val.bool true
  identification := Val.bool f.identification

/-- The `wrapperStructFace` value built at source lines 226-229:
`{ FLAGS_face, faceNetInputSize,
op::flagsToRenderMode(FLAGS_face_render, FLAGS_render_pose),
(float)FLAGS_face_alpha_pose, (float)FLAGS_face_alpha_heatmap,
(float)FLAGS_face_render_threshold }` with
`faceNetInputSize = flagsToPoint(FLAGS_face_net_resolution,
"368x368 (multiples of 16)")`. -/
def wrapperStructFace (f : Flags) : WrapperStructFace where
  enable := Val.bool f.face
  netInputSize := flagsToPoint f.face_net_resolution ("368x368 (multiples of 16)")
  renderModeFace := flagsToRenderMode2 f.face_render f.render_pose
  alphaKeypoint := Val.floatCast f.face_alpha_pose
  alphaHeatMap := Val.floatCast f.face_alpha_heatmap
  renderThreshold := Val.floatCast f.face_render_threshold

/-- The `wrapperStructHand` value built at source lines 231-235:
`{ FLAGS_hand, handNetInputSize, FLAGS_hand_scale_number,
(float)FLAGS_hand_scale_range, FLAGS_hand_tracking,
op::flagsToRenderMode(FLAGS_hand_render, FLAGS_render_pose),
(float)FLAGS_hand_alpha_pose, (float)FLAGS_hand_alpha_heatmap,
(float)FLAGS_hand_render_threshold }` with
`handNetInputSize = flagsToPoint(FLAGS_hand_net_resolution,
"368x368 (multiples of 16)")`. -/
def wrapperStructHand (f : Flags) : WrapperStructHand where
  enable := Val.bool f.hand
  netInputSize := flagsToPoint f.hand_net_resolution ("368x368 (multiples of 16)")
  scalesNumber := Val.int f.hand_scale_number
  scaleRange := Val.floatCast f.hand_scale_range
  tracking := Val.bool f.hand_tracking
  renderModeHand := flagsToRenderMode2 f.hand_render f.render_pose
  alphaKeypoint := Val.floatCast f.hand_alpha_pose
  alphaHeatMap := Val.floatCast f.hand_alpha_heatmap
  renderThreshold := Val.floatCast f.hand_render_threshold

/-- The `wrapperStructInput` value built at source lines 237-239:
`{ producerSharedPtr, FLAGS_frame_first, FLAGS_frame_last,
FLAGS_process_real_time, FLAGS_frame_flip, FLAGS_frame_rotate,
FLAGS_frames_repeat }` with `producerSharedPtr =
flagsToProducer(FLAGS_image_dir, FLAGS_video, FLAGS_ip_camera, FLAGS_camera,
FLAGS_camera_resolution, FLAGS_camera_fps)`. -/
def wrapperStructInput (f : Flags) : WrapperStructInput where
  producerSharedPtr :=
    flagsToProducer f.image_dir f.video f.ip_camera f.camera f.camera_resolution f.camera_fps
  frameFirst := Val.nat f.frame_first
  frameLast := Val.nat f.frame_last
  realTimeProcessing := Val.bool f.process_real_time
  frameFlip := Val.bool f.frame_flip
  frameRotate := Val.int f.frame_rotate
  framesRepeat := Val.bool f.frames_repeat

/-- The `wrapperStructOutput` value built at source lines 241-246:
`{ !FLAGS_no_display, !FLAGS_no_gui_verbose, FLAGS_fullscreen,
FLAGS_write_keypoint, op::stringToDataFormat(FLAGS_write_keypoint_format),
FLAGS_write_keypoint_json, FLAGS_write_coco_json, FLAGS_write_images,
FLAGS_write_images_format, FLAGS_write_video, FLAGS_write_heatmaps,
FLAGS_write_heatmaps_format }`. -/
def wrapperStructOutput (f : Flags) : WrapperStructOutput where
  displayGui := Val.bool (!f.no_display)
  guiVerbose := Val.bool (!f.no_gui_verbose)
  fullScreen := Val.bool f.fullscreen
  writeKeypoint := Val.str f.write_keypoint
  writeKeypointFormat := stringToDataFormat f.write_keypoint_format
  writeKeypointJson := Val.str f.write_keypoint_json
  writeCocoJson := Val.str f.write_coco_json
  writeImages := Val.str f.write_images
  writeImagesFormat := Val.str f.write_images_format
  writeVideo := Val.str f.write_video
  writeHeatMaps := Val.str f.write_heatmaps
  writeHeatMapsFormat := Val.str f.write_heatmaps_format

/-- The full argument tuple of the `opWrapper.configure` call
(source lines 248-249). -/
def configured (f : Flags) : Configured where
  pose := wrapperStructPose f
  face := wrapperStructFace f
  hand := wrapperStructHand f
  input := wrapperStructInput f
  output := wrapperStructOutput f

/-- Priority argument of `op::log` calls appearing in the file. -/
inductive LogPriority where
  | high : LogPriority
  | low : LogPriority
  deriving DecidableEq, Repr

/-- One event per call `openPoseDemo` makes into the external OpenPose
library, in the order the calls appear in the source. -/
inductive Event where
  /-- `op::ConfigureLog::setPriorityThreshold((op::Priority)FLAGS_logging_level)` (line 183). -/
  | setPriorityThreshold (p : Int) : Event
  /-- `op::log(message, priority, ...)` (lines 186, 211, 214, 256, 288). -/
  | log (prio : LogPriority) (msg : String) : Event
  /-- Construction of `op::Wrapper<std::vector<op::Datum>> opWrapper` (line 215). -/
  | createWrapper : Event
  /-- `opWrapper.configure(pose, face, hand, input, output)` (lines 248-249). -/
  | configure (c : Configured) : Event
  /-- `opWrapper.disableMultiThreading()` (line 252). -/
  | disableMultiThreading : Event
  /-- `opWrapper.exec()` (line 259). -/
  | exec : Event
  deriving DecidableEq, Repr

/-- Program state threaded through the embedded `openPoseDemo`: the gflags
variables (mutable globals in C++) and the trace of external-library calls
made so far. -/
structure DemoState where
  flags : Flags
  events : List Event

/-- Append one external-library call to the trace. -/
def emit (e : Event) (s : DemoState) : DemoState :=
  { s with events := s.events ++ [e] }

/-- The condition checked by `op::check` at source lines 181-182:
`0 <= FLAGS_logging_level && FLAGS_logging_level <= 255`. -/
def loggingLevelOk (f : Flags) : Prop :=
  0 ≤ f.logging_level ∧ f.logging_level ≤ 255

instance (f : Flags) : Decidable (loggingLevelOk f) := by
  unfold loggingLevelOk; infer_instance

/-- The final log message of source lines 286-288, parameterised by the
string `std::to_string(totalTimeSec)` produced from the wall-clock timer
(an environment input, not a function of the flags). -/
def finishedMessage (totalTimeSec : String) : String :=
  "Real-time pose estimation demo successfully finished. Total time: "
    ++ totalTimeSec ++ " seconds."

/-- Shallow embedding of the exported function `openPoseDemo`
(source lines 178-291).  `totalTimeSec` stands for the formatted wall-clock
duration measured via `std::chrono` (lines 187, 283-285), the only
non-flag input that reaches an observable effect (the final log message).
The result is the final state (flags and trace of external-library calls)
paired with the outcome: `Except.error msg` when `op::check` fails and
throws, `Except.ok 0` on normal return. -/
def openPoseDemo (f : Flags) (totalTimeSec : String) :
    DemoState × Except String Int :=
  let s0 : DemoState := { flags := f, events := [] }
  if loggingLevelOk f then
    let s1 := emit (Event.setPriorityThreshold f.logging_level) s0
    let s2 := emit (Event.log LogPriority.high ("Starting pose estimation demo.")) s1
    let s3 := emit (Event.log LogPriority.low ("")) s2
    let s4 := emit (Event.log LogPriority.low ("Configuring OpenPose wrapper.")) s3
    let s5 := emit Event.createWrapper s4
    let s6 := emit (Event.configure (configured f)) s5
    let s7 := if f.disable_multi_thread then emit Event.disableMultiThreading s6 else s6
    let s8 := emit (Event.log LogPriority.high ("Starting thread(s)")) s7
    let s9 := emit Event.exec s8
    let s10 := emit (Event.log LogPriority.high (finishedMessage totalTimeSec)) s9
    (s10, Except.ok 0)
  else
    (s0, Except.error ("Wrong logging_level value."))

/-- The external-library calls made before the `configure` call, in source
order (lines 183-215). -/
def preConfigureTrace (f : Flags) : List Event :=
  [Event.setPriorityThreshold f.logging_level,
   Event.log LogPriority.high ("Starting pose estimation demo."),
   Event.log LogPriority.low (""),
   Event.log LogPriority.low ("Configuring OpenPose wrapper."),
   Event.createWrapper]

/-- The external-library calls made after the optional
`disableMultiThreading` call, in source order (lines 256-288). -/
def postConfigureTrace (totalTimeSec : String) : List Event :=
  [Event.log LogPriority.high ("Starting thread(s)"),
   Event.exec,
   Event.log LogPriority.high (finishedMessage totalTimeSec)]

/-- The complete trace of a successful `openPoseDemo` run. -/
def demoTrace (f : Flags) (totalTimeSec : String) : List Event :=
  preConfigureTrace f ++ [Event.configure (configured f)]
    ++ (if f.disable_multi_thread then [Event.disableMultiThreading] else [])
    ++ postConfigureTrace totalTimeSec

/-- Characterisation of a successful run: when the `logging_level` check
passes, `openPoseDemo` leaves the flags unchanged, emits exactly
`demoTrace` and returns 0. -/
theorem openPoseDemo_ok (f : Flags) (t : String) (h : loggingLevelOk f) :
    openPoseDemo f t = ({ flags := f, events := demoTrace f t }, Except.ok 0) := by
  simp only [openPoseDemo, emit, if_pos h, demoTrace, preConfigureTrace,
    postConfigureTrace]
  cases hd : f.disable_multi_thread <;> simp

/-- Characterisation of a failing run: when the `logging_level` check fails,
`openPoseDemo` throws with the `op::check` message before any other effect. -/
theorem openPoseDemo_err (f : Flags) (t : String) (h : ¬ loggingLevelOk f) :
    openPoseDemo f t
      = ({ flags := f, events := [] }, Except.error ("Wrong logging_level value.")) := by
  simp only [openPoseDemo, if_neg h]

/-- The 12 gflags variables declared by the commented-out variant demo
(source lines 343-383), in declaration order. -/
structure FlagsV where
  logging_level : Int
  image_path : String
  model_pose : String
  model_folder : String
  net_resolution : String
  output_resolution : String
  num_gpu_start : Int
  scale_gap : Rat
  scale_number : Int
  disable_blending : Bool
  render_threshold : Rat
  alpha_pose : Rat

/-- Default values of the variant demo flags (source lines 343-383). -/
def defaultFlagsV : FlagsV where
  logging_level := 3
  image_path := "C:/Users/RHVR3.RHVR3/Desktop/Projects/Jerry/Masquerade-OpenPose/OpenPoseTesting/COCO_image.jpg"
  model_pose := "COCO"
  model_folder := "C:/Users/RHVR3.RHVR3/Desktop/Projects/Jerry/Masquerade-OpenPose/OpenPoseTesting/openpose-master/models/"
  net_resolution := "-1x368"
  output_resolution := "-1x-1"
  num_gpu_start := 0
  scale_gap := 3/10
  scale_number := 1
  disable_blending := false
  render_threshold := 1/20
  alpha_pose := 3/5

/-- One event per observable call the commented-out variant demo
(source lines 385-468) makes: console output, logging, and the direct
calls into the external OpenPose library classes. -/
inductive EventV where
  /-- `std::cout << "I'm here" << std::endl` (line 388). -/
  | coutMsg (s : String) : EventV
  /-- `op::log(message, priority, ...)` (lines 391, 399, 416, 464). -/
  | log (prio : LogPriority) (msg : String) : EventV
  /-- `op::ConfigureLog::setPriorityThreshold(...)` (line 398). -/
  | setPriorityThreshold (p : Int) : EventV
  /-- `op::ScaleAndSizeExtractor` construction (line 418). -/
  | scaleAndSizeExtractorCtor (netInputSize outputSize : Val)
      (scaleNumber : Int) (scaleGap : Rat) : EventV
  /-- `op::CvMatToOpInput` construction (line 419). -/
  | cvMatToOpInputCtor : EventV
  /-- `op::CvMatToOpOutput` construction (line 420). -/
  | cvMatToOpOutputCtor : EventV
  /-- `op::PoseExtractorCaffe` construction (lines 421-422). -/
  | poseExtractorCaffeCtor (poseModel : Val) (modelFolder : String)
      (numGpuStart : Int) : EventV
  /-- `op::PoseCpuRenderer` construction (lines 423-424). -/
  | poseCpuRendererCtor (poseModel : Val) (renderThreshold : Val)
      (blendOriginalFrame : Bool) (alphaKeypoint : Val) : EventV
  /-- `op::OpOutputToCvMat` construction (line 425). -/
  | opOutputToCvMatCtor : EventV
  /-- `op::FrameDisplayer` construction (line 426). -/
  | frameDisplayerCtor (title : String) (outputSize : Val) : EventV
  /-- `initializationOnThread()` (lines 428-429). -/
  | initializationOnThread : EventV
  /-- `op::loadImage(FLAGS_image_path, CV_LOAD_IMAGE_COLOR)` (line 434). -/
  | loadImage (path : String) : EventV
  /-- `scaleAndSizeExtractor.extract(imageSize)` (line 444). -/
  | extract : EventV
  /-- `createArray(...)` (lines 446-447). -/
  | createArray : EventV
  /-- `poseExtractorCaffe.forwardPass(...)` (line 449). -/
  | forwardPass : EventV
  /-- `poseExtractorCaffe.getPoseKeypoints()` (line 450). -/
  | getPoseKeypoints : EventV
  /-- `poseRenderer.renderPose(...)` (line 453). -/
  | renderPose : EventV
  /-- `opOutputToCvMat.formatToCvMat(outputArray)` (line 456). -/
  | formatToCvMat : EventV
  /-- `frameDisplayer.displayFrame(outputImage, 0)` (line 462). -/
  | displayFrame : EventV
  deriving DecidableEq, Repr

/-- Shallow embedding of the commented-out variant demo function, also named
`openPoseDemo` in the source (lines 385-468).  `imageEmpty` stands for
whether `op::loadImage` returns an empty `cv::Mat` (an environment input).
The C++ function returns `float`; outcomes are `Except.error msg` when an
`op::check`/`op::error` throws and `Except.ok 0` on normal return. -/
def openPoseDemoVariant (fv : FlagsV) (imageEmpty : Bool) :
    List EventV × Except String Rat :=
  let e0 := [EventV.coutMsg ("I'm here"),
             EventV.log LogPriority.high ("OpenPose Library Tutorial - Example 1.")]
  if 0 ≤ fv.logging_level ∧ fv.logging_level ≤ 255 then
    let e1 := e0 ++ [EventV.setPriorityThreshold fv.logging_level,
                     EventV.log LogPriority.low ("")]
    let outputSize := flagsToPoint fv.output_resolution ("-1x-1")
    let netInputSize := flagsToPoint fv.net_resolution ("-1x368")
    let pm := flagsToPoseModel fv.model_pose
    if fv.alpha_pose < 0 ∨ 1 < fv.alpha_pose then
      (e1, Except.error ("Alpha value for blending must be in the range [0,1]."))
    else if fv.scale_gap ≤ 0 ∧ 1 < fv.scale_number then
      (e1, Except.error
        ("Incompatible flag configuration: scale_gap must be greater than 0 or scale_number = 1."))
    else
      let e2 := e1 ++ [EventV.log LogPriority.low (""),
        EventV.scaleAndSizeExtractorCtor netInputSize outputSize fv.scale_number fv.scale_gap,
        EventV.cvMatToOpInputCtor,
        EventV.cvMatToOpOutputCtor,
        EventV.poseExtractorCaffeCtor pm fv.model_folder fv.num_gpu_start,
        EventV.poseCpuRendererCtor pm (Val.floatCast fv.render_threshold)
          (!fv.disable_blending) (Val.floatCast fv.alpha_pose),
        EventV.opOutputToCvMatCtor,
        EventV.frameDisplayerCtor ("OpenPose Tutorial - Example 1") outputSize,
        EventV.initializationOnThread,
        EventV.initializationOnThread,
        EventV.loadImage fv.image_path]
      if imageEmpty then
        (e2, Except.error (("Could not open or find the image: ") ++ fv.image_path))
      else
        (e2 ++ [EventV.extract, EventV.createArray, EventV.createArray,
                EventV.forwardPass, EventV.getPoseKeypoints, EventV.renderPose,
                EventV.formatToCvMat, EventV.displayFrame,
                EventV.log LogPriority.high ("Example 1 successfully finished.")],
         Except.ok 0)
  else
    (e0, Except.error ("Wrong logging_level value."))

/-- The pose configuration struct as claim C1 describes it: resolution
strings parsed via `op::flagsToPoint`, `model_pose` via
`op::flagsToPoseModel`, `keypoint_scale` via `op::flagsToScaleMode`, the
heatmap booleans via `op::flagsToHeatMaps`, `body_disable` and
`disable_blending` negated, and every other flag passed through unchanged
(numeric flags cast to float where the struct field is float) — in
particular `render_pose` stored unchanged, with no `op::flagsToRenderMode`
conversion.  The two constant fields (`heatMapScale`,
`enableGoogleLogging`), which the claim does not mention, are kept as the
code sets them. -/
def specClaimWrapperStructPose (f : Flags) : WrapperStructPose where
  enable := Val.bool (!f.body_disable)
  netInputSize := flagsToPoint f.net_resolution ("-1x368")
  outputSize := flagsToPoint f.output_resolution ("-1x-1")
  keypointScale := flagsToScaleMode f.keypoint_scale
  gpuNumber := Val.int f.num_gpu
  gpuNumberStart := Val.int f.num_gpu_start
  scalesNumber := Val.int f.scale_number
  scaleGap := Val.floatCast f.scale_gap
  renderModePose := Val.int f.render_pose
  poseModel := flagsToPoseModel f.model_pose
  blendOriginalFrame := Val.bool (!f.disable_blending)
  alphaKeypoint := Val.floatCast f.alpha_pose
  alphaHeatMap := Val.floatCast f.alpha_heatmap
  defaultPartToRender := Val.int f.part_to_show
  modelFolder := Val.str f.model_folder
  heatMapTypes := flagsToHeatMaps f.heatmaps_add_parts f.heatmaps_add_bkg f.heatmaps_add_PAFs
  heatMapScale := Val.scaleModeUnsignedChar
  renderThreshold := Val.floatCast f.render_threshold
  enableGoogleLogging := Val.bool true
  identification := Val.bool f.identification

/-- The five configuration structs as the amended claim C1 describes them:
as in the original claim, and additionally `render_pose`, `face_render` and
`hand_render` are converted via `op::flagsToRenderMode` (the face and hand
calls passing `render_pose` as the default), the six producer flags are
combined via `op::flagsToProducer` into the input struct's producer field,
`write_keypoint_format` is converted via `op::stringToDataFormat`, and two
pose-struct fields are constants (`heatMapScale =
op::ScaleMode::UnsignedChar`, `enableGoogleLogging = true`). -/
def specAmendedConfigured (f : Flags) : Configured where
  pose :=
    { enable := Val.bool (!f.body_disable)
      netInputSize := flagsToPoint f.net_resolution ("-1x368")
      outputSize := flagsToPoint f.output_resolution ("-1x-1")
      keypointScale := flagsToScaleMode f.keypoint_scale
      gpuNumber := Val.int f.num_gpu
      gpuNumberStart := Val.int f.num_gpu_start
      scalesNumber := Val.int f.scale_number
      scaleGap := Val.floatCast f.scale_gap
      renderModePose := flagsToRenderMode f.render_pose
      poseModel := flagsToPoseModel f.model_pose
      blendOriginalFrame := Val.bool (!f.disable_blending)
      alphaKeypoint := Val.floatCast f.alpha_pose
      alphaHeatMap := Val.floatCast f.alpha_heatmap
      defaultPartToRender := Val.int f.part_to_show
      modelFolder := Val.str f.model_folder
      heatMapTypes :=
        flagsToHeatMaps f.heatmaps_add_parts f.heatmaps_add_bkg f.heatmaps_add_PAFs
      heatMapScale := Val.scaleModeUnsignedChar
      renderThreshold := Val.floatCast f.render_threshold
      enableGoogleLogging := Val.bool true
      identification := Val.bool f.identification }
  face :=
    { enable := Val.bool f.face
      netInputSize := flagsToPoint f.face_net_resolution ("368x368 (multiples of 16)")
      renderModeFace := flagsToRenderMode2 f.face_render f.render_pose
      alphaKeypoint := Val.floatCast f.face_alpha_pose
      alphaHeatMap := Val.floatCast f.face_alpha_heatmap
      renderThreshold := Val.floatCast f.face_render_threshold }
  hand :=
    { enable := Val.bool f.hand
      netInputSize := flagsToPoint f.hand_net_resolution ("368x368 (multiples of 16)")
      scalesNumber := Val.int f.hand_scale_number
      scaleRange := Val.floatCast f.hand_scale_range
      tracking := Val.bool f.hand_tracking
      renderModeHand := flagsToRenderMode2 f.hand_render f.render_pose
      alphaKeypoint := Val.floatCast f.hand_alpha_pose
      alphaHeatMap := Val.floatCast f.hand_alpha_heatmap
      renderThreshold := Val.floatCast f.hand_render_threshold }
  input :=
    { producerSharedPtr :=
        flagsToProducer f.image_dir f.video f.ip_camera f.camera
          f.camera_resolution f.camera_fps
      frameFirst := Val.nat f.frame_first
      frameLast := Val.nat f.frame_last
      realTimeProcessing := Val.bool f.process_real_time
      frameFlip := Val.bool f.frame_flip
      frameRotate := Val.int f.frame_rotate
      framesRepeat := Val.bool f.frames_repeat }
  output :=
    { displayGui := Val.bool (!f.no_display)
      guiVerbose := Val.bool (!f.no_gui_verbose)
      fullScreen := Val.bool f.fullscreen
      writeKeypoint := Val.str f.write_keypoint
      writeKeypointFormat := stringToDataFormat f.write_keypoint_format
      writeKeypointJson := Val.str f.write_keypoint_json
      writeCocoJson := Val.str f.write_coco_json
      writeImages := Val.str f.write_images
      writeImagesFormat := Val.str f.write_images_format
      writeVideo := Val.str f.write_video
      writeHeatMaps := Val.str f.write_heatmaps
      writeHeatMapsFormat := Val.str f.write_heatmaps_format }

/-- The trace of external-library calls of a run. -/
def eventsOf (r : DemoState × Except String Int) : List Event :=
  r.1.events

/-- The arguments of the `opWrapper.configure` calls occurring in a run,
in order. -/
def configureArgs (r : DemoState × Except String Int) : List Configured :=
  r.1.events.filterMap (fun e =>
    match e with
    | Event.configure c => some c
    | _ => none)

/-- Every `Event` constructor models a call into the external OpenPose
library (`op::ConfigureLog::setPriorityThreshold`, `op::log`, the
`op::Wrapper` constructor, `configure`, `disableMultiThreading`, `exec`). -/
def Event.isExternalOpCall : Event → Bool
  | Event.setPriorityThreshold _ => true
  | Event.log _ _ => true
  | Event.createWrapper => true
  | Event.configure _ => true
  | Event.disableMultiThreading => true
  | Event.exec => true

/-- Whether an event is the `opWrapper.configure` call. -/
def Event.isConfigureCall : Event → Bool
  | Event.configure _ => true
  | _ => false

/-- Whether an event is the `opWrapper.exec` call. -/
def Event.isExecCall : Event → Bool
  | Event.exec => true
  | _ => false

/-- Helper: the configure arguments of a successful run. -/
theorem configureArgs_ok (f : Flags) (t : String) (h : loggingLevelOk f) :
    configureArgs (openPoseDemo f t) = [configured f] := by
  rw [configureArgs, openPoseDemo_ok f t h]
  cases hd : f.disable_multi_thread <;>
    simp [demoTrace, preConfigureTrace, postConfigureTrace, hd, List.filterMap]

/-- Claim C1 (counterexample): the claim asserts that, apart from the four
listed conversions and the four negated booleans, every flag is passed
through unchanged into the structs; but at the default flag values the pose
struct built by the code stores `op::flagsToRenderMode(FLAGS_render_pose)`
in its render-mode field, not the unchanged `render_pose` value, so the
struct differs from the claim's description. -/
theorem C1_counterexample_render_mode :
    wrapperStructPose defaultFlags ≠ specClaimWrapperStructPose defaultFlags := by
  intro h
  have h2 := congrArg WrapperStructPose.renderModePose h
  simp [wrapperStructPose, specClaimWrapperStructPose, flagsToRenderMode] at h2

/-- Claim C1 (amended): the five configuration structs passed to
`opWrapper.configure` are populated from the flag values exactly as the
claim describes, and additionally `render_pose`, `face_render` and
`hand_render` are converted via `op::flagsToRenderMode` (face and hand
passing `render_pose` as default), the six producer flags via
`op::flagsToProducer`, `write_keypoint_format` via
`op::stringToDataFormat`, and two pose fields are the constants
`op::ScaleMode::UnsignedChar` and `enableGoogleLogging = true`. -/
theorem C1_amended_struct_population (f : Flags) (t : String)
    (h : loggingLevelOk f) :
    configured f = specAmendedConfigured f
    ∧ configureArgs (openPoseDemo f t) = [specAmendedConfigured f] := by
  refine ⟨rfl, ?_⟩
  rw [configureArgs, openPoseDemo_ok f t h]
  cases hd : f.disable_multi_thread <;>
    simp [demoTrace, preConfigureTrace, postConfigureTrace, hd, List.filterMap] <;>
    rfl

/-- Witness for the amended claim C1 at the default flag values. -/
theorem C1_amended_witness :
    loggingLevelOk defaultFlags
    ∧ (configured defaultFlags = specAmendedConfigured defaultFlags
        ∧ configureArgs (openPoseDemo defaultFlags "1.0")
            = [specAmendedConfigured defaultFlags]) :=
  ⟨by decide, C1_amended_struct_population defaultFlags "1.0" (by decide)⟩

/-- Claim C5 (counterexample): the flag-driven interface does not consist
of 40 flags: the file declares 61 `DEFINE_*` flags. -/
theorem C5_counterexample_flag_count :
    flagNames.length ≠ 40 ∧ flagNames.length = 61 := by decide

/-- Claim C5 (amended): the program's flag-driven interface consists of
exactly 61 distinct command-line flags, and `openPoseDemo` populates the
flag values into exactly 5 configuration structs, which it passes in a
single `configure` call. -/
theorem C5_amended_flag_count (f : Flags) (t : String) (h : loggingLevelOk f) :
    flagNames.length = 61 ∧ flagNames.Nodup ∧ configStructNames.length = 5
    ∧ configureArgs (openPoseDemo f t)
        = [{ pose := wrapperStructPose f, face := wrapperStructFace f,
             hand := wrapperStructHand f, input := wrapperStructInput f,
             output := wrapperStructOutput f }] := by
  refine ⟨by decide, by decide, by decide, ?_⟩
  rw [configureArgs_ok f t h]
  rfl

/-- Witness for the amended claim C5 at the default flag values. -/
theorem C5_amended_witness :
    loggingLevelOk defaultFlags
    ∧ (flagNames.length = 61 ∧ flagNames.Nodup ∧ configStructNames.length = 5
        ∧ configureArgs (openPoseDemo defaultFlags "1.0")
            = [{ pose := wrapperStructPose defaultFlags,
                 face := wrapperStructFace defaultFlags,
                 hand := wrapperStructHand defaultFlags,
                 input := wrapperStructInput defaultFlags,
                 output := wrapperStructOutput defaultFlags }]) :=
  ⟨by decide, C5_amended_flag_count defaultFlags "1.0" (by decide)⟩

/-- Claim C8: whenever `openPoseDemo` returns normally its value is 0;
the only other outcome is the `op::check` failure on `logging_level`, so no
execution path returns a nonzero value. -/
theorem C8_returns_zero (f : Flags) (t : String) :
    (openPoseDemo f t).2 = Except.ok 0
    ∨ (openPoseDemo f t).2 = Except.error ("Wrong logging_level value.") := by
  by_cases h : loggingLevelOk f
  · left; rw [openPoseDemo_ok f t h]
  · right; rw [openPoseDemo_err f t h]

/-- Claim C10: `openPoseDemo` never writes to any `FLAGS_*` variable: the
flag state after the call (normal return or `op::check` failure) equals the
flag state before it. -/
theorem C10_flags_read_only (f : Flags) (t : String) :
    (openPoseDemo f t).1.flags = f := by
  by_cases h : loggingLevelOk f
  · rw [openPoseDemo_ok f t h]
  · rw [openPoseDemo_err f t h]

/-- Claim C2: every invocation performs its steps in a fixed order — the
`logging_level` validation and flag conversion first (a failed validation
produces no events at all, see claim C3), then exactly one `configure`
call, then the optional `disableMultiThreading`, then exactly one `exec`,
after which only the final log remains before `openPoseDemo` returns 0;
in particular `exec` is never invoked before `configure`. -/
theorem C2_steps_in_order (f : Flags) (t : String) (h : loggingLevelOk f) :
    ∃ pre mid post : List Event,
      eventsOf (openPoseDemo f t)
          = pre ++ [Event.configure (configured f)] ++ mid ++ [Event.exec] ++ post
      ∧ pre = preConfigureTrace f
      ∧ mid = (if f.disable_multi_thread then [Event.disableMultiThreading] else [])
          ++ [Event.log LogPriority.high ("Starting thread(s)")]
      ∧ post = [Event.log LogPriority.high (finishedMessage t)]
      ∧ (∀ e ∈ pre ++ mid ++ post,
          Event.isConfigureCall e = false ∧ Event.isExecCall e = false)
      ∧ (openPoseDemo f t).2 = Except.ok 0 := by
  refine ⟨preConfigureTrace f,
    (if f.disable_multi_thread then [Event.disableMultiThreading] else [])
      ++ [Event.log LogPriority.high ("Starting thread(s)")],
    [Event.log LogPriority.high (finishedMessage t)], ?_, rfl, rfl, rfl, ?_, ?_⟩
  · rw [eventsOf, openPoseDemo_ok f t h]
    cases hd : f.disable_multi_thread <;>
      simp [demoTrace, preConfigureTrace, postConfigureTrace, hd]
  · intro e he
    cases hd : f.disable_multi_thread <;>
      simp [preConfigureTrace, hd] at he <;>
      cases e <;>
      simp_all [Event.isConfigureCall, Event.isExecCall]
  · rw [openPoseDemo_ok f t h]

/-- Witness for claim C2 at the default flag values. -/
theorem C2_steps_in_order_witness :
    loggingLevelOk defaultFlags
    ∧ ∃ pre mid post : List Event,
      eventsOf (openPoseDemo defaultFlags "1.0")
          = pre ++ [Event.configure (configured defaultFlags)] ++ mid
              ++ [Event.exec] ++ post
      ∧ pre = preConfigureTrace defaultFlags
      ∧ mid = (if defaultFlags.disable_multi_thread
            then [Event.disableMultiThreading] else [])
          ++ [Event.log LogPriority.high ("Starting thread(s)")]
      ∧ post = [Event.log LogPriority.high (finishedMessage "1.0")]
      ∧ (∀ e ∈ pre ++ mid ++ post,
          Event.isConfigureCall e = false ∧ Event.isExecCall e = false)
      ∧ (openPoseDemo defaultFlags "1.0").2 = Except.ok 0 :=
  ⟨by decide, C2_steps_in_order defaultFlags "1.0" (by decide)⟩

/-- Helper: a successful run contains the `disableMultiThreading` event iff
the `disable_multi_thread` flag is set. -/
theorem mem_disableMultiThreading_ok (f : Flags) (t : String)
    (h : loggingLevelOk f) :
    Event.disableMultiThreading ∈ eventsOf (openPoseDemo f t)
      ↔ f.disable_multi_thread = true := by
  rw [eventsOf, openPoseDemo_ok f t h]
  cases hd : f.disable_multi_thread <;>
    simp [demoTrace, preConfigureTrace, postConfigureTrace, hd, finishedMessage]

/-- Helper: a failed run makes no `configure` call. -/
theorem configureArgs_err (f : Flags) (t : String) (h : ¬ loggingLevelOk f) :
    configureArgs (openPoseDemo f t) = [] := by
  rw [configureArgs, openPoseDemo_err f t h]
  rfl

/-- The default flags with an out-of-range `logging_level`. -/
def badFlags : Flags := { defaultFlags with logging_level := 300 }

/-- The default flags with `disable_multi_thread` set. -/
def dmtFlags : Flags := { defaultFlags with disable_multi_thread := true }

/-- Claim C3: `openPoseDemo` raises the `op::check` error with message
"Wrong logging_level value." iff the `logging_level` flag lies outside
`[0, 255]`, and in that case it fails atomically: no external-library call
has been made (in particular no logging threshold was set and no struct was
passed anywhere) and the flags are untouched. -/
theorem C3_logging_level_check (f : Flags) (t : String) :
    ((openPoseDemo f t).2 = Except.error ("Wrong logging_level value.")
        ↔ ¬ loggingLevelOk f)
    ∧ (¬ loggingLevelOk f →
        openPoseDemo f t
          = ({ flags := f, events := [] },
             Except.error ("Wrong logging_level value."))) := by
  constructor
  · by_cases h : loggingLevelOk f
    · rw [openPoseDemo_ok f t h]; simp [h]
    · rw [openPoseDemo_err f t h]; simp [h]
  · intro h
    exact openPoseDemo_err f t h

/-- Witness for claim C3 at `logging_level = 300`. -/
theorem C3_logging_level_check_witness :
    ¬ loggingLevelOk badFlags
    ∧ ((openPoseDemo badFlags "1.0").2
          = Except.error ("Wrong logging_level value.")
        ↔ ¬ loggingLevelOk badFlags)
    ∧ openPoseDemo badFlags "1.0"
        = ({ flags := badFlags, events := [] },
           Except.error ("Wrong logging_level value.")) :=
  ⟨by decide, (C3_logging_level_check badFlags "1.0").1,
    (C3_logging_level_check badFlags "1.0").2 (by decide)⟩

/-- Claim C6: the observable behaviour of `openPoseDemo` is a function of
the flag values alone: two runs with equal flags (and arbitrary wall-clock
readings) pass equal arguments to `configure`, agree on raising the
`logging_level` error, and agree on calling `disableMultiThreading`; the
`configure` argument is the struct tuple computed from the flags. -/
theorem C6_flag_determinism (f : Flags) (t1 t2 : String) :
    configureArgs (openPoseDemo f t1) = configureArgs (openPoseDemo f t2)
    ∧ ((openPoseDemo f t1).2 = Except.error ("Wrong logging_level value.")
        ↔ (openPoseDemo f t2).2 = Except.error ("Wrong logging_level value."))
    ∧ (Event.disableMultiThreading ∈ eventsOf (openPoseDemo f t1)
        ↔ Event.disableMultiThreading ∈ eventsOf (openPoseDemo f t2))
    ∧ configureArgs (openPoseDemo f t1)
        = (if loggingLevelOk f then [configured f] else []) := by
  by_cases h : loggingLevelOk f
  · refine ⟨?_, ?_, ?_, ?_⟩
    · rw [configureArgs_ok f t1 h, configureArgs_ok f t2 h]
    · rw [openPoseDemo_ok f t1 h, openPoseDemo_ok f t2 h]
    · rw [mem_disableMultiThreading_ok f t1 h, mem_disableMultiThreading_ok f t2 h]
    · rw [configureArgs_ok f t1 h, if_pos h]
  · refine ⟨?_, ?_, ?_, ?_⟩
    · rw [configureArgs_err f t1 h, configureArgs_err f t2 h]
    · rw [openPoseDemo_err f t1 h, openPoseDemo_err f t2 h]
    · rw [eventsOf, eventsOf, openPoseDemo_err f t1 h, openPoseDemo_err f t2 h]
    · rw [configureArgs_err f t1 h, if_neg h]

/-- Claim C7: apart from reading the flags, building the configuration
structs, measuring time and returning 0, every effect of a successful
`openPoseDemo` run is a call into the external `op::` library: the run
leaves the flags unchanged, emits exactly `demoTrace` — every element of
which is an external `op::` call — and returns 0. -/
theorem C7_only_external_calls (f : Flags) (t : String) (h : loggingLevelOk f) :
    openPoseDemo f t = ({ flags := f, events := demoTrace f t }, Except.ok 0)
    ∧ (demoTrace f t).all Event.isExternalOpCall = true := by
  refine ⟨openPoseDemo_ok f t h, ?_⟩
  cases hd : f.disable_multi_thread <;>
    simp [demoTrace, preConfigureTrace, postConfigureTrace, hd,
      Event.isExternalOpCall]

/-- Witness for claim C7 at the default flag values. -/
theorem C7_only_external_calls_witness :
    loggingLevelOk defaultFlags
    ∧ (openPoseDemo defaultFlags "1.0"
          = ({ flags := defaultFlags, events := demoTrace defaultFlags "1.0" },
             Except.ok 0)
        ∧ (demoTrace defaultFlags "1.0").all Event.isExternalOpCall = true) :=
  ⟨by decide, C7_only_external_calls defaultFlags "1.0" (by decide)⟩

/-- Claim C9: a successful run calls `disableMultiThreading` iff the
`disable_multi_thread` flag is set, and when it does the call sits strictly
between the `configure` call and the `exec` call. -/
theorem C9_disable_multi_thread_iff (f : Flags) (t : String)
    (h : loggingLevelOk f) :
    (Event.disableMultiThreading ∈ eventsOf (openPoseDemo f t)
      ↔ f.disable_multi_thread = true)
    ∧ (f.disable_multi_thread = true →
        eventsOf (openPoseDemo f t)
          = (preConfigureTrace f ++ [Event.configure (configured f)])
              ++ [Event.disableMultiThreading] ++ postConfigureTrace t
        ∧ Event.exec ∈ postConfigureTrace t
        ∧ Event.disableMultiThreading
            ∉ preConfigureTrace f ++ [Event.configure (configured f)]
        ∧ Event.disableMultiThreading ∉ postConfigureTrace t
        ∧ Event.exec ∉ preConfigureTrace f ++ [Event.configure (configured f)]) := by
  constructor
  · exact mem_disableMultiThreading_ok f t h
  · intro hd
    refine ⟨?_, ?_, ?_, ?_, ?_⟩
    · rw [eventsOf, openPoseDemo_ok f t h]
      simp [demoTrace, hd]
    · simp [postConfigureTrace]
    · simp [preConfigureTrace]
    · simp [postConfigureTrace, finishedMessage]
    · simp [preConfigureTrace]

/-- Witness for claim C9 with `disable_multi_thread = true`. -/
theorem C9_disable_multi_thread_witness :
    loggingLevelOk dmtFlags
    ∧ (Event.disableMultiThreading ∈ eventsOf (openPoseDemo dmtFlags "1.0")
        ↔ dmtFlags.disable_multi_thread = true)
    ∧ (eventsOf (openPoseDemo dmtFlags "1.0")
          = (preConfigureTrace dmtFlags ++ [Event.configure (configured dmtFlags)])
              ++ [Event.disableMultiThreading] ++ postConfigureTrace "1.0"
        ∧ Event.exec ∈ postConfigureTrace "1.0"
        ∧ Event.disableMultiThreading
            ∉ preConfigureTrace dmtFlags ++ [Event.configure (configured dmtFlags)]
        ∧ Event.disableMultiThreading ∉ postConfigureTrace "1.0"
        ∧ Event.exec
            ∉ preConfigureTrace dmtFlags ++ [Event.configure (configured dmtFlags)]) :=
  ⟨by decide,
    (C9_disable_multi_thread_iff dmtFlags "1.0" (by decide)).1,
    (C9_disable_multi_thread_iff dmtFlags "1.0" (by decide)).2 rfl⟩

/-- A flag assignment for the active demo with `alpha_pose = 2` (all other
flags at their defaults). -/
def cxFlags : Flags := { defaultFlags with alpha_pose := 2 }

/-- The same flag assignment for the variant demo: every flag shared with
the active demo has the same value as in `cxFlags`. -/
def cxFlagsV : FlagsV :=
  { defaultFlagsV with
      alpha_pose := 2
      model_folder := "Assets/Dependencies/models/" }

/-- Claim C4 (counterexample): the active `openPoseDemo` and the
commented-out variant are not behaviourally equivalent: on the flag
assignment with `alpha_pose = 2` (all shared flags equal), the active demo
succeeds and returns 0 while the variant raises the alpha-blending
validation error — a validation the active demo does not perform at all. -/
theorem C4_counterexample_alpha_validation :
    cxFlags.alpha_pose = cxFlagsV.alpha_pose
    ∧ cxFlags.logging_level = cxFlagsV.logging_level
    ∧ (openPoseDemo cxFlags "1.0").2 = Except.ok 0
    ∧ (openPoseDemoVariant cxFlagsV false).2
        = Except.error ("Alpha value for blending must be in the range [0,1].") := by
  refine ⟨rfl, rfl, ?_, ?_⟩
  · norm_num [openPoseDemo, cxFlags, defaultFlags, loggingLevelOk]
  · norm_num [openPoseDemoVariant, cxFlagsV, defaultFlagsV]

/-- Claim C4 (amended): the two demo functions are distinct programs (the
variant processes a single image directly and performs extra validations),
but they agree on the shared front matter: for any flag assignments that
agree on `logging_level`, the variant raises the "Wrong logging_level
value." check error iff the active demo does, and the shared flags are
converted by the same library helpers (`op::flagsToPoint` with the same
defaults, `op::flagsToPoseModel`). -/
theorem C4_amended_shared_validation (f : Flags) (fv : FlagsV) (t : String)
    (b : Bool) (h : fv.logging_level = f.logging_level) :
    ((openPoseDemoVariant fv b).2 = Except.error ("Wrong logging_level value.")
      ↔ (openPoseDemo f t).2 = Except.error ("Wrong logging_level value."))
    ∧ (fv.output_resolution = f.output_resolution →
        flagsToPoint fv.output_resolution ("-1x-1")
          = flagsToPoint f.output_resolution ("-1x-1"))
    ∧ (fv.net_resolution = f.net_resolution →
        flagsToPoint fv.net_resolution ("-1x368")
          = flagsToPoint f.net_resolution ("-1x368"))
    ∧ (fv.model_pose = f.model_pose →
        flagsToPoseModel fv.model_pose = flagsToPoseModel f.model_pose) := by
  have hv : (0 ≤ fv.logging_level ∧ fv.logging_level ≤ 255) ↔ loggingLevelOk f := by
    rw [loggingLevelOk, h]
  refine ⟨?_, fun he => by rw [he], fun he => by rw [he], fun he => by rw [he]⟩
  by_cases hl : loggingLevelOk f
  · rw [openPoseDemo_ok f t hl]
    simp only [openPoseDemoVariant, if_pos (hv.mpr hl)]
    split_ifs with h1 h2 h3 <;> simp
    · intro hc
      have hlen := congrArg String.length hc
      have h34 : ("Could not open or find the image: ").length = 34 := rfl
      have h26 : ("Wrong logging_level value.").length = 26 := rfl
      rw [String.length_append, h34, h26] at hlen
      omega
  · rw [openPoseDemo_err f t hl]
    simp only [openPoseDemoVariant, if_neg (fun hc => hl (hv.mp hc))]

/-- Witness for the amended claim C4 at the default flag assignments. -/
theorem C4_amended_witness :
    defaultFlagsV.logging_level = defaultFlags.logging_level
    ∧ defaultFlagsV.output_resolution = defaultFlags.output_resolution
    ∧ defaultFlagsV.net_resolution = defaultFlags.net_resolution
    ∧ defaultFlagsV.model_pose = defaultFlags.model_pose
    ∧ ((openPoseDemoVariant defaultFlagsV false).2
          = Except.error ("Wrong logging_level value.")
        ↔ (openPoseDemo defaultFlags "1.0").2
            = Except.error ("Wrong logging_level value."))
    ∧ flagsToPoint defaultFlagsV.output_resolution ("-1x-1")
        = flagsToPoint defaultFlags.output_resolution ("-1x-1")
    ∧ flagsToPoint defaultFlagsV.net_resolution ("-1x368")
        = flagsToPoint defaultFlags.net_resolution ("-1x368")
    ∧ flagsToPoseModel defaultFlagsV.model_pose
        = flagsToPoseModel defaultFlags.model_pose :=
  ⟨rfl, rfl, rfl, rfl,
    (C4_amended_shared_validation defaultFlags defaultFlagsV "1.0" false rfl).1,
    (C4_amended_shared_validation defaultFlags defaultFlagsV "1.0" false rfl).2.1 rfl,
    (C4_amended_shared_validation defaultFlags defaultFlagsV "1.0" false rfl).2.2.1 rfl,
    (C4_amended_shared_validation defaultFlags defaultFlagsV "1.0" false rfl).2.2.2 rfl⟩
